import Mathlib

/-
Verification of the per-region replica metadata and snapshot-range module
(src/raftserver/store/peer_meta.rs).

Shallow embedding conventions:
  * Rust u64 counters are modelled as Nat (no arithmetic here can overflow a
    u64 on the inputs the code handles; the byte encoding takes each byte
    mod 256 explicitly).
  * Byte strings (&[u8] / Vec<u8>) are List Nat.
  * Rust Result<T> is Except RaftError T; try! is monadic bind.
  * The FnMut visitor closure is modelled by explicit state passing: a
    visitor of state type s maps (state, key, value) to
    Except RaftError (Bool, state); the Bool is the Rust return value
    (continue?), the state is the closure's captured environment.
  * PeerMeta methods take &self, so they are pure functions of the store
    value; the store is never part of the output.
-/

namespace PeerMetaSpec

/-- Error type of the raftserver Result.  The source builds its only local
error with other("un-initialized truncated state"); engine and snapshot
failures are carried by the storage constructor. -/
inductive RaftError where
  | other (msg : String)
  | storage (msg : String)
deriving Repr, DecidableEq

/-- The error value produced by the source expression
other("un-initialized truncated state"). -/
def uninitErr : RaftError := RaftError.other "un-initialized truncated state"

/-- proto RaftTruncatedState: highest compacted log entry (index, term). -/
structure RaftTruncatedState where
  index : Nat
  term : Nat
deriving Repr, DecidableEq

/-- metapb::Region as used by peer_meta.rs: only the boundary keys are
consulted (get_start_key / get_end_key). -/
structure Region where
  start_key : List Nat
  end_key : List Nat
deriving Repr, DecidableEq

/-- Modelled from the spec: the Retriever / engine read capability
(super::engine is not under src/).  "Engine read interface:
get_typed(key) -> Option<T> (typed decode of a stored message or a 64-bit
integer by key)"; reads can also fail, so each accessor returns a Result.
get_msg decodes a RaftTruncatedState record, get_u64 a 64-bit counter. -/
structure Retriever where
  get_msg : List Nat → Except RaftError (Option RaftTruncatedState)
  get_u64 : List Nat → Except RaftError (Option Nat)

/-- Modelled from the spec: byte tag opening the local namespace
(super::keys is not under src/).  Durable key layout table: local keys are
local_tag + be64(region_id) + field_tag. -/
def LOCAL_TAG : Nat := 1

/-- Modelled from the spec: the engine's absolute minimum key (empty). -/
def MIN_KEY : List Nat := []

/-- Modelled from the spec: the fixed upper boundary of the local reserved
range, the first key above every local key. -/
def LOCAL_MAX : List Nat := [LOCAL_TAG + 1]

/-- Fixed-width big-endian encoding of a 64-bit region id, one Nat per
byte. -/
def be64 (n : Nat) : List Nat :=
  [n / 2 ^ 56 % 256, n / 2 ^ 48 % 256, n / 2 ^ 40 % 256, n / 2 ^ 32 % 256,
   n / 2 ^ 24 % 256, n / 2 ^ 16 % 256, n / 2 ^ 8 % 256, n % 256]

/-- Modelled from the spec: keys::region_id_prefix, the start of the
half-open interval of one region's local metadata:
local_tag + be64(region_id). -/
def region_id_prefix (region_id : Nat) : List Nat :=
  LOCAL_TAG :: be64 region_id

/-- Field tag of the truncated-state record inside a region's local
metadata. -/
def TRUNCATED_STATE_TAG : Nat := 1

/-- Field tag of the last-index counter. -/
def LAST_INDEX_TAG : Nat := 2

/-- Field tag of the applied-index counter. -/
def APPLIED_INDEX_TAG : Nat := 3

/-- Modelled from the spec: keys::raft_truncated_state_key(region_id) =
local_tag + be64(region_id) + field_tag. -/
def raft_truncated_state_key (region_id : Nat) : List Nat :=
  region_id_prefix region_id ++ [TRUNCATED_STATE_TAG]

/-- Modelled from the spec: keys::raft_last_index_key(region_id). -/
def raft_last_index_key (region_id : Nat) : List Nat :=
  region_id_prefix region_id ++ [LAST_INDEX_TAG]

/-- Modelled from the spec: keys::raft_applied_index_key(region_id). -/
def raft_applied_index_key (region_id : Nat) : List Nat :=
  region_id_prefix region_id ++ [APPLIED_INDEX_TAG]

/-- Modelled from the spec: keys::region_meta_prefix maps a region boundary
key into the meta namespace preserving byte order; durable key layout
table: local_tag + boundary_key. -/
def region_meta_prefix (key : List Nat) : List Nat :=
  LOCAL_TAG :: key

/-- Strict lexicographic order on byte strings, the engine's key order. -/
def bytesLt : List Nat → List Nat → Bool
  | _, [] => false
  | [], _ :: _ => true
  | a :: as, b :: bs =>
      if a < b then true else if a = b then bytesLt as bs else false

/-- Membership of key k in the half-open byte range from a to b. -/
def inRange (a b k : List Nat) : Bool :=
  !bytesLt k a && bytesLt k b

/-- A visitor closure FnMut(&[u8], &[u8]) -> Result<bool> with captured
state of type s: applied to its state, a key and a value it yields
continue? and the updated state, or an error. -/
abbrev Visitor (s : Type) : Type :=
  s → List Nat → List Nat → Except RaftError (Bool × s)

/-- Modelled from the spec: a point-in-time consistent snapshot view as the
ordered list of its key/value entries (rocksdb::Snapshot is not under
src/). -/
structure Snap where
  entries : List (List Nat × List Nat)

/-- Core loop of the snapshot scan: visit entries in order, stopping when
the visitor returns an error or signals stop (continue? = false).  The
Bool of the result records whether the walk ran to completion. -/
def scanGo {s : Type} (f : Visitor s) :
    List (List Nat × List Nat) → s → Except RaftError (Bool × s)
  | [], st => Except.ok (true, st)
  | (k, v) :: rest, st =>
      match f st k v with
      | Except.error e => Except.error e
      | Except.ok (cont, st') =>
          if cont then scanGo f rest st' else Except.ok (false, st')

/-- Modelled from the spec: Snapshot scan(start, end, visitor) -> Result<()>
over a point-in-time view.  It visits every snapshot entry inside the
half-open range, propagates a visitor error, and simply returns when the
visitor signals stop; the unit result of the Rust signature is replaced by
the visitor's final state, so an early stop is not distinguishable from
completion in the return value, exactly as with Result<()>. -/
def Snap.scan {s : Type} (snap : Snap) (a b : List Nat) (f : Visitor s)
    (st : s) : Except RaftError s :=
  match scanGo f (snap.entries.filter (fun kv => inRange a b kv.1)) st with
  | Except.error e => Except.error e
  | Except.ok (_, st') => Except.ok st'

/-- Sentinel constant RAFT_INIT_LOG_TERM from the source. -/
def RAFT_INIT_LOG_TERM : Nat := 5

/-- Sentinel constant RAFT_INIT_LOG_INDEX from the source. -/
def RAFT_INIT_LOG_INDEX : Nat := 10

/-- PeerMeta: engine handle, region id, region descriptor, counters and the
lazily cached truncated state. -/
structure PeerMeta where
  engine : Retriever
  region_id : Nat
  region : Region
  last_index : Nat
  applied_index : Nat
  truncated_state : Option RaftTruncatedState

/-- PeerMeta::is_initialized: the end key is non-empty. -/
def is_initialized (m : PeerMeta) : Bool :=
  m.region.end_key.length > 0

/-- PeerMeta::get_truncated_state: pure read of the cached field, failing
when it was never loaded. -/
def get_truncated_state (m : PeerMeta) : Except RaftError RaftTruncatedState :=
  match m.truncated_state with
  | none => Except.error (RaftError.other "un-initialized truncated state")
  | some state => Except.ok state

/-- PeerMeta::get_first_index: cached truncated index + 1. -/
def get_first_index (m : PeerMeta) : Except RaftError Nat :=
  Except.map (fun state => state.index + 1) (get_truncated_state m)

/-- PeerMeta::load_truncated_state: read the persisted record through the
store's own engine; if absent, synthesize the bootstrap default without
writing anything back. -/
def load_truncated_state (m : PeerMeta) : Except RaftError RaftTruncatedState := do
  let res ← m.engine.get_msg (raft_truncated_state_key m.region_id)
  match res with
  | some state => return state
  | none =>
      if is_initialized m then
        return { index := RAFT_INIT_LOG_INDEX, term := RAFT_INIT_LOG_TERM }
      else
        return { index := 0, term := 0 }

/-- PeerMeta::load_last_index: persisted counter when present, otherwise the
cached truncated state's index itself (via get_truncated_state). -/
def load_last_index (m : PeerMeta) : Except RaftError Nat := do
  let n ← m.engine.get_u64 (raft_last_index_key m.region_id)
  match n with
  | some last_index => return last_index
  | none => do
      let state ← get_truncated_state m
      return state.index

/-- PeerMeta::load_applied_index: read through the caller-supplied retriever
db, defaulting to RAFT_INIT_LOG_INDEX when initialized, else 0. -/
def load_applied_index (m : PeerMeta) (db : Retriever) : Except RaftError Nat := do
  let applied_index : Nat := if is_initialized m then RAFT_INIT_LOG_INDEX else 0
  let n ← db.get_u64 (raft_applied_index_key m.region_id)
  return n.getD applied_index

/-- PeerMeta::region_key_ranges: the three ranges covering one region's
local metadata, descriptor record and data. -/
def region_key_ranges (m : PeerMeta) : List (List Nat × List Nat) :=
  let data_start_key :=
    if m.region.start_key == MIN_KEY then LOCAL_MAX else m.region.start_key
  [( region_id_prefix m.region_id, region_id_prefix (m.region_id + 1)),
   ( region_meta_prefix m.region.start_key,
     region_meta_prefix m.region.end_key),
   (data_start_key, m.region.end_key)]

/-- PeerMeta::snap_scan_region: scan each of the three ranges in order,
propagating the first error with try!. -/
def snap_scan_region {s : Type} (m : PeerMeta) (snap : Snap) (f : Visitor s)
    (st : s) : Except RaftError s :=
  List.foldlM (fun st r => snap.scan r.1 r.2 f st) st (region_key_ranges m)

/-- First of the three snapshot ranges: this region's local metadata. -/
def range0 (m : PeerMeta) : List Nat × List Nat :=
  ( region_id_prefix m.region_id, region_id_prefix (m.region_id + 1))

/-- Second of the three snapshot ranges: this region's descriptor entry. -/
def range1 (m : PeerMeta) : List Nat × List Nat :=
  ( region_meta_prefix m.region.start_key,
    region_meta_prefix m.region.end_key)

/-- Third of the three snapshot ranges: this region's data. -/
def range2 (m : PeerMeta) : List Nat × List Nat :=
  ((if m.region.start_key == MIN_KEY then LOCAL_MAX
    else m.region.start_key), m.region.end_key)

/-- A retriever with nothing persisted under any key. -/
def emptyRetriever : Retriever :=
  { get_msg := fun _ => Except.ok none, get_u64 := fun _ => Except.ok none }

/-- A retriever holding only last_index = 150 for region 7. -/
def retrLast150 : Retriever :=
  { get_msg := fun _ => Except.ok none,
    get_u64 := fun k =>
      if k = raft_last_index_key 7 then Except.ok (some 150)
      else Except.ok none }

/-- A retriever holding only a truncated state (100, 3) for region 7. -/
def retrTS100 : Retriever :=
  { get_msg := fun k =>
      if k = raft_truncated_state_key 7 then
        Except.ok (some { index := 100, term := 3 })
      else Except.ok none,
    get_u64 := fun _ => Except.ok none }

/-- A retriever holding only applied_index = 120 for region 7, standing for
an in-flight batch view. -/
def retrApplied120 : Retriever :=
  { get_msg := fun _ => Except.ok none,
    get_u64 := fun k =>
      if k = raft_applied_index_key 7 then Except.ok (some 120)
      else Except.ok none }

/-- Region with byte boundary keys [97] (inclusive) to [109] (exclusive). -/
def regionAM : Region := { start_key := [97], end_key := [109] }

/-- Store for region 1 over regionAM, nothing persisted, nothing cached. -/
def store1 : PeerMeta :=
  { engine := emptyRetriever, region_id := 1, region := regionAM,
    last_index := 0, applied_index := 0, truncated_state := none }

/-- Store for region 5, initialized (end key [122]), nothing persisted,
truncated state never loaded into the cache. -/
def store5init : PeerMeta :=
  { engine := emptyRetriever, region_id := 5,
    region := { start_key := [], end_key := [122] },
    last_index := 0, applied_index := 0, truncated_state := none }

/-- store5init after the caller installs the loaded default (10, 5). -/
def store5installed : PeerMeta :=
  { store5init with truncated_state := some { index := 10, term := 5 } }

/-- Store for region 5 with empty boundary keys: uninitialized. -/
def storeUninit : PeerMeta :=
  { engine := emptyRetriever, region_id := 5,
    region := { start_key := [], end_key := [] },
    last_index := 0, applied_index := 0, truncated_state := none }

/-- Store for region 7 whose engine persists last_index = 150. -/
def storeLast150 : PeerMeta :=
  { engine := retrLast150, region_id := 7, region := regionAM,
    last_index := 0, applied_index := 0, truncated_state := none }

/-- Store for region 7 with an empty engine and cached truncated state
(100, 3). -/
def storeCached100 : PeerMeta :=
  { engine := emptyRetriever, region_id := 7, region := regionAM,
    last_index := 0, applied_index := 0,
    truncated_state := some { index := 100, term := 3 } }

/-- Store for region 7 whose engine persists truncated state (100, 3). -/
def storeTS100 : PeerMeta :=
  { engine := retrTS100, region_id := 7, region := regionAM,
    last_index := 0, applied_index := 0, truncated_state := none }

/-- A key inside store1's local-metadata range. -/
def raftKey1 : List Nat := raft_last_index_key 1

/-- A key inside store1's region-meta range. -/
def metaKey1 : List Nat := [LOCAL_TAG, 98]

/-- A key inside store1's data range. -/
def dataKey1 : List Nat := [100]

/-- The empty snapshot view. -/
def emptySnap : Snap := { entries := [] }

/-- Snapshot with one entry in store1's first range and one in its third. -/
def snap1 : Snap := { entries := [(raftKey1, [7]), (dataKey1, [8])] }

/-- Snapshot whose single entry lies in store1's first range. -/
def snapR0 : Snap := { entries := [(raftKey1, [7])] }

/-- Snapshot whose single entry lies in store1's second range. -/
def snapR1 : Snap := { entries := [(metaKey1, [7])] }

/-- Snapshot whose single entry lies in store1's third range. -/
def snapR2 : Snap := { entries := [(dataKey1, [7])] }

/-- Visitor that records each visited key and signals stop on every call. -/
def visitStopAll : Visitor (List (List Nat)) :=
  fun st k _ => Except.ok (false, k :: st)

/-- Visitor that fails on every call. -/
def visitFail : Visitor Unit :=
  fun _ _ _ => Except.error (RaftError.storage "boom")

/-- Binding an ok result applies the continuation. -/
theorem except_bind_ok {a b : Type} (x : a) (g : a → Except RaftError b) :
    (Except.ok x >>= g) = g x := rfl

/-- Binding an error short-circuits. -/
theorem except_bind_error {a b : Type} (e : RaftError)
    (g : a → Except RaftError b) :
    ((Except.error e : Except RaftError a) >>= g) = Except.error e := rfl

/-- The three ranges of region_key_ranges are range0, range1, range2. -/
theorem region_key_ranges_eq (m : PeerMeta) :
    region_key_ranges m = [range0 m, range1 m, range2 m] := rfl

/-- snap_scan_region is the three range scans chained by try!. -/
theorem snap_scan_region_eq {s : Type} (m : PeerMeta) (snap : Snap)
    (f : Visitor s) (st : s) :
    snap_scan_region m snap f st =
      (snap.scan (range0 m).1 (range0 m).2 f st >>= fun s1 =>
       snap.scan (range1 m).1 (range1 m).2 f s1 >>= fun s2 =>
       snap.scan (range2 m).1 (range2 m).2 f s2) := by
  rw [snap_scan_region, region_key_ranges_eq]
  simp [List.foldlM]

/-- Claim C5: for every region, region_key_ranges returns exactly three
ranges in the fixed order [local metadata, region-meta, region-data]:
the half-open span of the region id's local prefix, the meta span of the
boundary keys, and the data span ending at end_key and starting at
start_key unless start_key is the engine's absolute minimum key, in which
case it starts at LOCAL_MAX. -/
theorem c5_region_key_ranges_shape (m : PeerMeta) :
    region_key_ranges m =
      [( region_id_prefix m.region_id, region_id_prefix (m.region_id + 1)),
       ( region_meta_prefix m.region.start_key,
         region_meta_prefix m.region.end_key),
       ((if m.region.start_key = MIN_KEY then LOCAL_MAX
         else m.region.start_key), m.region.end_key)] := by
  by_cases h : m.region.start_key = MIN_KEY <;>
    simp [region_key_ranges, h]

/-- Claim C6: load_truncated_state returns the persisted record when one is
present under this region id; when absent it returns (10, 5) for an
initialized region and (0, 0) otherwise; it reads only the truncated-state
key and never writes the synthesized default back (the store and its
engine are taken immutably, and replacing the engine by any retriever
agreeing on that one key leaves the result unchanged). -/
theorem c6_load_truncated_state_cases (m : PeerMeta) :
    (∀ ts, m.engine.get_msg (raft_truncated_state_key m.region_id) =
        Except.ok (some ts) → load_truncated_state m = Except.ok ts) ∧
    (m.engine.get_msg (raft_truncated_state_key m.region_id) =
        Except.ok none →
      load_truncated_state m =
        Except.ok (if is_initialized m then
            { index := RAFT_INIT_LOG_INDEX, term := RAFT_INIT_LOG_TERM }
          else { index := 0, term := 0 })) ∧
    (∀ e' : Retriever,
      e'.get_msg (raft_truncated_state_key m.region_id) =
        m.engine.get_msg (raft_truncated_state_key m.region_id) →
      load_truncated_state { m with engine := e' } =
        load_truncated_state m) := by
  refine ⟨fun ts h => ?_, fun h => ?_, fun e' h => ?_⟩
  · simp [load_truncated_state, h, except_bind_ok]
    rfl
  · by_cases hi : is_initialized m <;>
      simp [load_truncated_state, h, except_bind_ok, hi] <;> rfl
  · simp only [load_truncated_state, is_initialized, h]

/-- Witness for C6 at concrete stores: a persisted (100, 3) is returned
verbatim; with nothing persisted an initialized region gets the default,
an uninitialized one gets the zero state; replacing the engine of a store
with nothing persisted by the empty retriever changes nothing. -/
theorem c6_load_truncated_state_cases_witness :
    load_truncated_state storeTS100 =
      Except.ok { index := 100, term := 3 } ∧
    load_truncated_state store5init =
      Except.ok (if is_initialized store5init then
          { index := RAFT_INIT_LOG_INDEX, term := RAFT_INIT_LOG_TERM }
        else { index := 0, term := 0 }) ∧
    load_truncated_state storeUninit =
      Except.ok (if is_initialized storeUninit then
          { index := RAFT_INIT_LOG_INDEX, term := RAFT_INIT_LOG_TERM }
        else { index := 0, term := 0 }) ∧
    load_truncated_state { store5init with engine := emptyRetriever } =
      load_truncated_state store5init :=
  ⟨(c6_load_truncated_state_cases storeTS100).1
      { index := 100, term := 3 } rfl,
   (c6_load_truncated_state_cases store5init).2.1 rfl,
   (c6_load_truncated_state_cases storeUninit).2.1 rfl,
   (c6_load_truncated_state_cases store5init).2.2 emptyRetriever rfl⟩

/-- Claim C8: get_truncated_state and get_first_index are pure reads of the
cached field: each fails with the uninitialized-state error exactly when
the cache is empty; with a cached value, get_truncated_state returns it
and get_first_index returns its index + 1; neither consults the engine
(replacing the engine leaves both results unchanged). -/
theorem c8_get_accessors_pure (m : PeerMeta) :
    (m.truncated_state = none ↔
      get_truncated_state m = Except.error uninitErr) ∧
    (m.truncated_state = none ↔
      get_first_index m = Except.error uninitErr) ∧
    (∀ ts, m.truncated_state = some ts →
      get_truncated_state m = Except.ok ts ∧
      get_first_index m = Except.ok (ts.index + 1)) ∧
    (∀ e' : Retriever,
      get_truncated_state { m with engine := e' } = get_truncated_state m ∧
      get_first_index { m with engine := e' } = get_first_index m) := by
  cases h : m.truncated_state <;>
    simp [get_truncated_state, get_first_index, uninitErr, Except.map, h]

/-- Witness for C8 at concrete stores: an empty cache makes both accessors
fail; a cached (100, 3) yields the state and first index 101. -/
theorem c8_get_accessors_pure_witness :
    get_truncated_state store5init = Except.error uninitErr ∧
    get_truncated_state storeCached100 =
      Except.ok { index := 100, term := 3 } ∧
    get_first_index storeCached100 = Except.ok (100 + 1) :=
  ⟨(c8_get_accessors_pure store5init).1.mp rfl,
   ((c8_get_accessors_pure storeCached100).2.2.1
      { index := 100, term := 3 } rfl).1,
   ((c8_get_accessors_pure storeCached100).2.2.1
      { index := 100, term := 3 } rfl).2⟩

/-- Claim C3: load_last_index returns the persisted last-index counter when
one is present; when absent it returns the cached truncated state's index
itself (not index + 1), obtained via get_truncated_state, and fails with
the uninitialized-state error when the cache is unset. -/
theorem c3_load_last_index_cases (m : PeerMeta) :
    (∀ n, m.engine.get_u64 (raft_last_index_key m.region_id) =
        Except.ok (some n) → load_last_index m = Except.ok n) ∧
    (m.engine.get_u64 (raft_last_index_key m.region_id) = Except.ok none →
      (∀ ts, m.truncated_state = some ts →
        load_last_index m = Except.ok ts.index) ∧
      (m.truncated_state = none →
        load_last_index m = Except.error uninitErr)) := by
  refine ⟨fun n h => ?_, fun h => ⟨fun ts hts => ?_, fun hnone => ?_⟩⟩
  · simp [load_last_index, h, except_bind_ok]
    rfl
  · simp [load_last_index, h, except_bind_ok, get_truncated_state, hts]
  · simp [load_last_index, h, except_bind_ok, get_truncated_state, hnone,
      uninitErr]

/-- Witness for C3 at concrete stores: persisted 150 is returned; with
nothing persisted, the cached index 100 is returned as-is; with nothing
persisted and no cached truncated state the call fails. -/
theorem c3_load_last_index_cases_witness :
    load_last_index storeLast150 = Except.ok 150 ∧
    load_last_index storeCached100 = Except.ok 100 ∧
    load_last_index store5init = Except.error uninitErr :=
  ⟨(c3_load_last_index_cases storeLast150).1 150 rfl,
   ((c3_load_last_index_cases storeCached100).2 rfl).1
      { index := 100, term := 3 } rfl,
   ((c3_load_last_index_cases store5init).2 rfl).2 rfl⟩

/-- Claim C7: load_applied_index reads the applied-index key through the
caller-supplied retriever, returning the persisted value whenever present
in that view, and the default 10 (initialized) or 0 (uninitialized) when
absent; the store's own engine handle is never consulted (replacing it
changes nothing). -/
theorem c7_load_applied_index_cases (m : PeerMeta) (db : Retriever) :
    (∀ n, db.get_u64 (raft_applied_index_key m.region_id) =
        Except.ok (some n) → load_applied_index m db = Except.ok n) ∧
    (db.get_u64 (raft_applied_index_key m.region_id) = Except.ok none →
      load_applied_index m db =
        Except.ok (if is_initialized m then RAFT_INIT_LOG_INDEX else 0)) ∧
    (∀ e' : Retriever,
      load_applied_index { m with engine := e' } db =
        load_applied_index m db) := by
  refine ⟨fun n h => ?_, fun h => ?_, fun e' => ?_⟩
  · simp [load_applied_index, h, except_bind_ok]
  · by_cases hi : is_initialized m <;>
      simp [load_applied_index, h, except_bind_ok, hi]
  · simp only [load_applied_index, is_initialized]

/-- Witness for C7 at concrete stores: a batch view persisting 120
overrides the initialized default 10; the empty view yields the default 10
for an initialized store and 0 for an uninitialized one; swapping the
store's engine is irrelevant. -/
theorem c7_load_applied_index_cases_witness :
    load_applied_index storeLast150 retrApplied120 = Except.ok 120 ∧
    load_applied_index storeLast150 emptyRetriever =
      Except.ok (if is_initialized storeLast150 then RAFT_INIT_LOG_INDEX
        else 0) ∧
    load_applied_index storeUninit emptyRetriever =
      Except.ok (if is_initialized storeUninit then RAFT_INIT_LOG_INDEX
        else 0) ∧
    load_applied_index { storeLast150 with engine := emptyRetriever }
        retrApplied120 =
      load_applied_index storeLast150 retrApplied120 :=
  ⟨(c7_load_applied_index_cases storeLast150 retrApplied120).1 120 rfl,
   (c7_load_applied_index_cases storeLast150 emptyRetriever).2.1 rfl,
   (c7_load_applied_index_cases storeUninit emptyRetriever).2.1 rfl,
   (c7_load_applied_index_cases storeLast150 retrApplied120).2.2
      emptyRetriever⟩

/-- Claim C9: snap_scan_region surfaces the first failing range's error
verbatim and scans no subsequent range once a scan fails (the result is
exactly that error, untouched by the later ranges); when all three range
scans succeed it returns ok. -/
theorem c9_snap_scan_error_prop {s : Type} (m : PeerMeta) (snap : Snap)
    (f : Visitor s) (st : s) :
    (∀ e, snap.scan (range0 m).1 (range0 m).2 f st = Except.error e →
      snap_scan_region m snap f st = Except.error e) ∧
    (∀ s1 e, snap.scan (range0 m).1 (range0 m).2 f st = Except.ok s1 →
      snap.scan (range1 m).1 (range1 m).2 f s1 = Except.error e →
      snap_scan_region m snap f st = Except.error e) ∧
    (∀ s1 s2 e, snap.scan (range0 m).1 (range0 m).2 f st = Except.ok s1 →
      snap.scan (range1 m).1 (range1 m).2 f s1 = Except.ok s2 →
      snap.scan (range2 m).1 (range2 m).2 f s2 = Except.error e →
      snap_scan_region m snap f st = Except.error e) ∧
    (∀ s1 s2 s3, snap.scan (range0 m).1 (range0 m).2 f st = Except.ok s1 →
      snap.scan (range1 m).1 (range1 m).2 f s1 = Except.ok s2 →
      snap.scan (range2 m).1 (range2 m).2 f s2 = Except.ok s3 →
      snap_scan_region m snap f st = Except.ok s3) := by
  refine ⟨fun e h0 => ?_, fun s1 e h0 h1 => ?_,
    fun s1 s2 e h0 h1 h2 => ?_, fun s1 s2 s3 h0 h1 h2 => ?_⟩ <;>
    rw [snap_scan_region_eq m snap f st] <;>
    simp [h0, except_bind_ok, except_bind_error] <;>
    simp [h1, except_bind_ok, except_bind_error] <;>
    simp [h2, except_bind_ok, except_bind_error]

/-- Witness for C9 at concrete stores: a visitor failure in any one of the
three ranges makes snap_scan_region return that storage error, and with no
entries to visit all three scans succeed. -/
theorem c9_snap_scan_error_prop_witness :
    snap_scan_region store1 snapR0 visitFail () =
      Except.error (RaftError.storage "boom") ∧
    snap_scan_region store1 snapR1 visitFail () =
      Except.error (RaftError.storage "boom") ∧
    snap_scan_region store1 snapR2 visitFail () =
      Except.error (RaftError.storage "boom") ∧
    snap_scan_region store1 emptySnap visitFail () = Except.ok () :=
  ⟨(c9_snap_scan_error_prop store1 snapR0 visitFail ()).1
      (RaftError.storage "boom") rfl,
   (c9_snap_scan_error_prop store1 snapR1 visitFail ()).2.1 ()
      (RaftError.storage "boom") rfl rfl,
   (c9_snap_scan_error_prop store1 snapR2 visitFail ()).2.2.1 () ()
      (RaftError.storage "boom") rfl rfl rfl,
   (c9_snap_scan_error_prop store1 emptySnap visitFail ()).2.2.2 () () ()
      rfl rfl rfl⟩

/-- Counterexample to claim C1.  snapshot snap1 holds one entry under
raftKey1, inside store1's first range, and one under dataKey1, inside its
third range.  The visitor signals stop (continue? = false) on its very
first call, while the first range is being scanned, yet the final visited
list contains dataKey1: an entry of the third range was scanned after the
stop.  A stop makes the current range's scan return ok, which is
indistinguishable from normal completion in its unit-like result, so the
loop in snap_scan_region moves on to the remaining ranges. -/
theorem c1_counterexample :
    visitStopAll [] raftKey1 [7] = Except.ok (false, [raftKey1]) ∧
    inRange (range0 store1).1 (range0 store1).2 raftKey1 = true ∧
    inRange (range2 store1).1 (range2 store1).2 dataKey1 = true ∧
    snap_scan_region store1 snap1 visitStopAll [] =
      Except.ok [dataKey1, raftKey1] :=
  ⟨rfl, rfl, rfl, rfl⟩

/-- Claim C1 as amended: a visitor stop during the first range ends only
that range's scan; whenever the first range's scan returns ok — by running
out of entries or by an early stop — snap_scan_region still scans the
remaining two ranges, continuing from the visitor state the first range
produced.  Only an error prevents the subsequent ranges from being
scanned. -/
theorem c1_stop_only_ends_current_range {s : Type} (m : PeerMeta)
    (snap : Snap) (f : Visitor s) (st s1 : s)
    (h : snap.scan (range0 m).1 (range0 m).2 f st = Except.ok s1) :
    snap_scan_region m snap f st =
      (snap.scan (range1 m).1 (range1 m).2 f s1 >>= fun s2 =>
       snap.scan (range2 m).1 (range2 m).2 f s2) := by
  rw [snap_scan_region_eq m snap f st, h, except_bind_ok]

/-- Witness for the amended C1: on snap1 the visitor stops inside the first
range with visited state [raftKey1], and the whole region scan equals the
scans of ranges two and three continued from that state. -/
theorem c1_stop_only_ends_current_range_witness :
    snap_scan_region store1 snap1 visitStopAll [] =
      (Snap.scan snap1 (range1 store1).1 (range1 store1).2 visitStopAll
          [raftKey1] >>= fun s2 =>
       Snap.scan snap1 (range2 store1).1 (range2 store1).2 visitStopAll
          s2) :=
  c1_stop_only_ends_current_range store1 snap1 visitStopAll [] [raftKey1]
    rfl

/-- Counterexample to claim C2.  store5init has an empty cache and nothing
persisted; load_truncated_state succeeds with the synthesized default, yet
the store's truncated_state field is still none — load_truncated_state
borrows the store immutably (Rust &self) and installs nothing — so a
subsequent get_truncated_state on the store still fails with the
uninitialized-state error. -/
theorem c2_counterexample :
    store5init.truncated_state = none ∧
    load_truncated_state store5init =
      Except.ok { index := 10, term := 5 } ∧
    get_truncated_state store5init = Except.error uninitErr :=
  ⟨rfl, rfl, rfl⟩

/-- Claim C2 as amended: load_truncated_state computes and returns the
truncated state without mutating the store; after a successful load the
cached field is exactly as before, so a subsequent get_truncated_state
behaves as if the load had never happened, and it succeeds only once the
caller itself installs the loaded value into the field. -/
theorem c2_load_does_not_install (m : PeerMeta) (ts : RaftTruncatedState)
    (h : load_truncated_state m = Except.ok ts) :
    (load_truncated_state m >>= fun _ => get_truncated_state m) =
      get_truncated_state m ∧
    get_truncated_state { m with truncated_state := some ts } =
      Except.ok ts := by
  rw [h, except_bind_ok]
  exact ⟨rfl, rfl⟩

/-- Witness for the amended C2 at store5init: loading then reading the
cache equals just reading the cache, and reading after the caller installs
the loaded (10, 5) succeeds with it. -/
theorem c2_load_does_not_install_witness :
    (load_truncated_state store5init >>= fun _ =>
      get_truncated_state store5init) = get_truncated_state store5init ∧
    get_truncated_state store5installed =
      Except.ok { index := 10, term := 5 } :=
  c2_load_does_not_install store5init { index := 10, term := 5 } rfl

/-- Counterexample to claim C4.  On store5init, load_truncated_state
returns the default with index 10, so the claimed equality would make
get_first_index return 10 + 1; but get_first_index reads the cached field,
which is unset, so it fails with the uninitialized-state error instead of
returning any value. -/
theorem c4_counterexample :
    load_truncated_state store5init =
      Except.ok { index := 10, term := 5 } ∧
    get_first_index store5init = Except.error uninitErr ∧
    (Except.error uninitErr : Except RaftError Nat) ≠ Except.ok (10 + 1) :=
  ⟨rfl, rfl, fun h => Except.noConfusion h⟩

/-- Claim C4 as amended: whenever the cached truncated_state holds the very
value that load_truncated_state returns — as it does once the caller
installs the loaded value, in both the defaulted and the persisted case —
get_first_index equals load_truncated_state's index + 1. -/
theorem c4_first_index_of_installed (m : PeerMeta)
    (ts : RaftTruncatedState)
    (h1 : load_truncated_state m = Except.ok ts)
    (h2 : m.truncated_state = some ts) :
    get_first_index m =
      Except.map (fun state => state.index + 1) (load_truncated_state m) := by
  rw [h1]
  simp [get_first_index, get_truncated_state, h2]

/-- Witness for the amended C4: on store5installed, whose cache holds the
value the load returns, get_first_index is the loaded index + 1. -/
theorem c4_first_index_of_installed_witness :
    get_first_index store5installed =
      Except.map (fun state => state.index + 1)
        (load_truncated_state store5installed) :=
  c4_first_index_of_installed store5installed { index := 10, term := 5 }
    rfl rfl

/-- Claim C10: neither region_key_ranges nor snap_scan_region imposes an
initialization precondition.  For a region with empty end_key the three
ranges are still produced, the region-meta range ending at the meta image
of the empty key and the data range ending at the empty key, and
snap_scan_region scans them without any guard error: on any snapshot with
no matching entries it returns ok for every visitor and state. -/
theorem c10_no_init_guard (m : PeerMeta) (h : m.region.end_key = []) :
    region_key_ranges m =
      [( region_id_prefix m.region_id, region_id_prefix (m.region_id + 1)),
       ( region_meta_prefix m.region.start_key, region_meta_prefix []),
       ((if m.region.start_key = MIN_KEY then LOCAL_MAX
         else m.region.start_key), [])] ∧
    (∀ (s : Type) (f : Visitor s) (st : s),
      snap_scan_region m emptySnap f st = Except.ok st) := by
  constructor
  · by_cases hs : m.region.start_key = MIN_KEY <;>
      simp [region_key_ranges, h, hs]
  · intro s f st
    rw [snap_scan_region_eq m emptySnap f st]
    rfl

/-- Witness for C10 at storeUninit (both boundary keys empty): the three
ranges are produced with the meta range ending at the meta image of the
empty key and the data range [LOCAL_MAX, empty), and a region scan over
the empty snapshot returns ok under a visitor that would stop at the first
entry. -/
theorem c10_no_init_guard_witness :
    region_key_ranges storeUninit =
      [( region_id_prefix storeUninit.region_id,
         region_id_prefix (storeUninit.region_id + 1)),
       ( region_meta_prefix storeUninit.region.start_key,
         region_meta_prefix []),
       ((if storeUninit.region.start_key = MIN_KEY then LOCAL_MAX
         else storeUninit.region.start_key), [])] ∧
    snap_scan_region storeUninit emptySnap visitStopAll [] =
      Except.ok [] :=
  ⟨(c10_no_init_guard storeUninit rfl).1,
   (c10_no_init_guard storeUninit rfl).2 (List (List Nat)) visitStopAll []⟩

end PeerMetaSpec
